import Mathlib

/-
Verification development for the randomized-interval time-series forest in
sktime/series_as_features/base/estimators/interval_based/_tsf.py.

The module is embedded shallowly:
* numpy's seeded RandomState is an explicit stream of raw natural-number
  draws; `rng.randint(bound)` reduces the next raw value modulo the bound and
  raises ValueError when the bound is not positive, exactly as numpy does;
* series values, feature values and importances are real numbers;
* the forest object is a record of its attributes, and `_fit` /
  `temporal_curves_` are functions from records to records; a Python
  exception escaping `_fit` is modelled by returning the error message
  together with the partially mutated record (the attribute writes performed
  before the raise are kept, as in Python).
-/

set_option maxHeartbeats 1000000

/-- Explicit random source standing for numpy's seeded `RandomState`:
`stream` is the pre-seeded sequence of raw draws and `pos` the cursor. -/
structure RNG where
  stream : Nat → Nat
  pos : Nat

/-- Advance the random source by one draw. -/
def RNG.next (r : RNG) : RNG := ⟨r.stream, r.pos + 1⟩

/-- Model of `rng.randint(bound)` (one-argument form, high exclusive): a
uniform draw from [0, bound), realised as the next raw stream value reduced
modulo the bound; numpy raises `ValueError: low >= high` when the bound is
not positive. -/
def randint (bound : Int) (r : RNG) : Except String (Nat × RNG) :=
  if bound ≤ 0 then .error "ValueError: low >= high"
  else .ok (r.stream r.pos % bound.toNat, r.next)

/-- Loop body of `_get_intervals` (_tsf.py lines 210-214): draw `start`
from [0, series_length - min_interval), draw a candidate `length` from
[0, series_length - start - 1), clamp the length up to `min_interval`, and
produce the pair (start, start + length). -/
def sampleOne (min_interval series_length : Nat) (r : RNG) :
    Except String ((Nat × Nat) × RNG) :=
  match randint ((series_length : Int) - (min_interval : Int)) r with
  | .error e => .error e
  | .ok (start, r1) =>
    match randint ((series_length : Int) - (start : Int) - 1) r1 with
    | .error e => .error e
    | .ok (len0, r2) =>
      let length := if len0 < min_interval then min_interval else len0
      .ok ((start, start + length), r2)

/-- Embedding of `_get_intervals(n_intervals, min_interval, series_length,
rng)` (_tsf.py lines 206-215): generate `n_intervals` random (start, end)
pairs, threading the random source through the loop in order. -/
def _get_intervals (n_intervals min_interval series_length : Nat) (r : RNG) :
    Except String (List (Nat × Nat) × RNG) :=
  match n_intervals with
  | 0 => .ok ([], r)
  | n + 1 =>
    match sampleOne min_interval series_length r with
    | .error e => .error e
    | .ok (iv, r1) =>
      match _get_intervals n min_interval series_length r1 with
      | .error e => .error e
      | .ok (ivs, r2) => .ok (iv :: ivs, r2)

/-- The `start` draw of one `sampleOne` step, written directly from the
stream. -/
def startDraw (min_interval series_length : Nat) (r : RNG) : Nat :=
  r.stream r.pos % ((series_length : Int) - (min_interval : Int)).toNat

/-- The candidate `length` draw of one `sampleOne` step, before the clamp,
written directly from the stream. -/
def candidateLen (min_interval series_length : Nat) (r : RNG) : Nat :=
  r.stream (r.pos + 1) %
    ((series_length : Int) - (startDraw min_interval series_length r : Int)
      - 1).toNat

lemma randint_pos (bound : Int) (r : RNG) (h : 0 < bound) :
    randint bound r = .ok (r.stream r.pos % bound.toNat, r.next) := by
  unfold randint
  rw [if_neg (by omega)]

lemma randint_nonpos (bound : Int) (r : RNG) (h : bound ≤ 0) :
    randint bound r = .error "ValueError: low >= high" := by
  unfold randint
  rw [if_pos h]

lemma startDraw_lt (m L : Nat) (r : RNG) (h2 : m < L) :
    startDraw m L r < L - m := by
  unfold startDraw
  have ht : ((L : Int) - (m : Int)).toNat = L - m := by omega
  rw [ht]
  exact Nat.mod_lt _ (by omega)

lemma candidateLen_lt (m L : Nat) (r : RNG) (h1 : 1 ≤ m) (h2 : m < L) :
    candidateLen m L r < L - startDraw m L r - 1 := by
  have hs := startDraw_lt m L r h2
  unfold candidateLen
  have ht : ((L : Int) - (startDraw m L r : Int) - 1).toNat
      = L - startDraw m L r - 1 := by omega
  rw [ht]
  exact Nat.mod_lt _ (by omega)

lemma sampleOne_eq (m L : Nat) (r : RNG) (h1 : 1 ≤ m) (h2 : m < L) :
    sampleOne m L r = .ok ((startDraw m L r, startDraw m L r +
      (if candidateLen m L r < m then m else candidateLen m L r)),
      r.next.next) := by
  have hs := startDraw_lt m L r h2
  unfold sampleOne
  rw [randint_pos _ _ (by omega)]
  show (match randint ((L : Int) - (startDraw m L r : Int) - 1) r.next with
    | Except.error e => Except.error e
    | Except.ok (len0, r2) =>
      Except.ok ((startDraw m L r, startDraw m L r +
        (if len0 < m then m else len0)), r2)) = _
  rw [randint_pos _ _ (by omega)]
  rfl

lemma sampleOne_ok_inv (m L : Nat) (r : RNG) (p : Nat × Nat) (r2 : RNG)
    (h1 : 1 ≤ m) (h2 : m < L) (h : sampleOne m L r = .ok (p, r2)) :
    p.1 + m ≤ p.2 ∧ p.1 < p.2 ∧ p.2 + 1 ≤ L ∧
    (p.2 = L - 1 → candidateLen m L r < m ∧ p.2 = p.1 + m) := by
  have hse := sampleOne_eq m L r h1 h2
  rw [h] at hse
  injection hse with h3
  injection h3 with ha hb
  have hs := startDraw_lt m L r h2
  have hc := candidateLen_lt m L r h1 h2
  rw [ha]
  by_cases hcm : candidateLen m L r < m
  · rw [if_pos hcm]
    constructor
    · omega
    constructor
    · omega
    constructor
    · omega
    · intro _
      exact ⟨hcm, rfl⟩
  · rw [if_neg hcm]
    constructor
    · omega
    constructor
    · omega
    constructor
    · omega
    · intro hend
      exfalso
      omega

lemma sampleOne_err (m L : Nat) (r : RNG) (hm : L ≤ m) :
    sampleOne m L r = .error "ValueError: low >= high" := by
  unfold sampleOne
  rw [randint_nonpos _ _ (by omega)]

lemma getIntervals_ok (K m L : Nat) (h1 : 1 ≤ m) (h2 : m < L) :
    ∀ r : RNG, ∃ ivs r2, _get_intervals K m L r = .ok (ivs, r2) ∧
      ivs.length = K ∧
      ∀ p ∈ ivs, p.1 + m ≤ p.2 ∧ p.1 < p.2 ∧ p.2 + 1 ≤ L := by
  induction K with
  | zero =>
    intro r
    exact ⟨[], r, rfl, rfl, by simp⟩
  | succ K ih =>
    intro r
    obtain ⟨ivs, r2, heq, hlen, hprops⟩ := ih r.next.next
    have e1 := sampleOne_eq m L r h1 h2
    have hhead := sampleOne_ok_inv m L r _ _ h1 h2 e1
    refine ⟨(startDraw m L r, startDraw m L r +
      (if candidateLen m L r < m then m else candidateLen m L r)) :: ivs,
      r2, ?_, by simp [hlen], ?_⟩
    · unfold _get_intervals
      simp only [e1, heq]
    · intro p hp
      rcases List.mem_cons.mp hp with hph | hpt
      · rw [hph]
        exact ⟨hhead.1, hhead.2.1, hhead.2.2.1⟩
      · exact hprops p hpt

lemma getIntervals_ok_inv (K m L : Nat) (r : RNG) (ivs : List (Nat × Nat))
    (r2 : RNG) (h1 : 1 ≤ m) (h2 : m < L)
    (h : _get_intervals K m L r = .ok (ivs, r2)) :
    ivs.length = K ∧
    ∀ p ∈ ivs, p.1 + m ≤ p.2 ∧ p.1 < p.2 ∧ p.2 + 1 ≤ L := by
  obtain ⟨ivs0, r20, heq, hlen, hprops⟩ := getIntervals_ok K m L h1 h2 r
  rw [h] at heq
  injection heq with h3
  injection h3 with ha hb
  rw [ha]
  exact ⟨hlen, hprops⟩

lemma getIntervals_err (K m L : Nat) (r : RNG) (hK : 1 ≤ K) (hm : L ≤ m) :
    _get_intervals K m L r = .error "ValueError: low >= high" := by
  cases K with
  | zero => omega
  | succ n =>
    unfold _get_intervals
    rw [sampleOne_err m L r hm]

/-- Constant-zero raw stream, used for concrete runs. -/
def rng0 : RNG := ⟨fun _ => 0, 0⟩

/-- Constant-one raw stream, used for concrete runs. -/
def rngC : RNG := ⟨fun _ => 1, 0⟩

/-- C1: for every call to the interval sampler with interval count K and
minimum interval length m with 1 ≤ m < L that returns an interval set,
every generated (start, end) pair has 0 ≤ start (trivial over Nat),
start < end, end - start ≥ m, and lies within [0, L): end < L, in
particular end ≤ L - 1. -/
theorem claim_C1 (K m L : Nat) (r : RNG) (ivs : List (Nat × Nat)) (r2 : RNG)
    (h1 : 1 ≤ m) (h2 : m < L)
    (h : _get_intervals K m L r = .ok (ivs, r2)) :
    ∀ p ∈ ivs, p.1 < p.2 ∧ p.1 + m ≤ p.2 ∧ p.2 < L ∧ p.2 ≤ L - 1 := by
  obtain ⟨-, hprops⟩ := getIntervals_ok_inv K m L r ivs r2 h1 h2 h
  intro p hp
  obtain ⟨ha, hb, hc⟩ := hprops p hp
  exact ⟨hb, ha, by omega, by omega⟩

/-- Witness for C1 at K = 1, m = 1, L = 3 with the all-zero stream: the
sampler returns the single interval (0, 1). -/
theorem claim_C1_witness :
    (1 ≤ 1 ∧ 1 < 3 ∧
      _get_intervals 1 1 3 rng0 = .ok ([(0, 1)], ⟨fun _ => 0, 2⟩)) ∧
    (∀ p ∈ [((0 : Nat), (1 : Nat))],
      p.1 < p.2 ∧ p.1 + 1 ≤ p.2 ∧ p.2 < 3 ∧ p.2 ≤ 3 - 1) :=
  ⟨⟨Nat.le_refl 1, by omega, rfl⟩,
    claim_C1 1 1 3 rng0 [(0, 1)] ⟨fun _ => 0, 2⟩ (Nat.le_refl 1)
      (by omega) rfl⟩

/-- C2 counterexample: the claim asserts that for some valid inputs
(1 ≤ m < L) the clamp pushes an interval end beyond L - 1; in fact no run
of `_get_intervals` on valid inputs ever produces an end above L - 1, so
the claimed inputs do not exist. -/
theorem claim_C2_counterexample :
    ¬ ∃ (K m L : Nat) (r r2 : RNG) (ivs : List (Nat × Nat)),
      1 ≤ m ∧ m < L ∧ _get_intervals K m L r = .ok (ivs, r2) ∧
      ∃ p ∈ ivs, L - 1 < p.2 := by
  rintro ⟨K, m, L, r, r2, ivs, h1, h2, heq, p, hp, hgt⟩
  obtain ⟨-, hprops⟩ := getIntervals_ok_inv K m L r ivs r2 h1 h2 heq
  obtain ⟨-, -, hc⟩ := hprops p hp
  omega

/-- C2 amended: for valid inputs (1 ≤ m < L) a generated end never exceeds
L - 1; clamping the candidate length up to m can push the end to L - 1,
one past the bound L - 2 that the unclamped length draw allows, and an end
equal to L - 1 is reachable only through the clamping branch (the candidate
length draw was below m and the clamped length is exactly m); such a
clamped end = L - 1 is actually reached, e.g. at m = 1, L = 3 with the
all-one stream. -/
theorem claim_C2_amended (m L : Nat) (r : RNG) (p : Nat × Nat) (r2 : RNG)
    (h1 : 1 ≤ m) (h2 : m < L) (h : sampleOne m L r = .ok (p, r2)) :
    (p.2 ≤ L - 1 ∧
      (p.2 = L - 1 → candidateLen m L r < m ∧ p.2 = p.1 + m)) ∧
    (sampleOne 1 3 rngC = .ok ((1, 2), ⟨fun _ => 1, 2⟩) ∧
      candidateLen 1 3 rngC < 1 ∧ 2 = 3 - 1) := by
  obtain ⟨-, -, hc, hclamp⟩ := sampleOne_ok_inv m L r p r2 h1 h2 h
  exact ⟨⟨by omega, hclamp⟩, rfl, by decide, rfl⟩

/-- Witness for the amended C2 at m = 1, L = 3 with the all-one stream:
start = 1, candidate length 0 is clamped to 1, end = 2 = L - 1. -/
theorem claim_C2_amended_witness :
    (1 ≤ 1 ∧ 1 < 3 ∧ sampleOne 1 3 rngC = .ok ((1, 2), ⟨fun _ => 1, 2⟩)) ∧
    ((2 : Nat) ≤ 3 - 1 ∧
      ((2 : Nat) = 3 - 1 → candidateLen 1 3 rngC < 1 ∧ (2 : Nat) = 1 + 1)) :=
  ⟨⟨Nat.le_refl 1, by omega, rfl⟩,
    (claim_C2_amended 1 3 rngC (1, 2) ⟨fun _ => 1, 2⟩ (Nat.le_refl 1)
      (by omega) rfl).1⟩

noncomputable section

/-- Slice `row[a:b]` of numpy: the elements with indices in [a, b),
clamped to the row. -/
def npSlice (row : List ℝ) (a b : Nat) : List ℝ := (row.take b).drop a

/-- Model of `np.mean` over one axis slice. The empty mean is 0/0 = 0. -/
def npMean (xs : List ℝ) : ℝ := xs.sum / xs.length

/-- Model of `np.std`: population standard deviation, the square root of
the mean squared deviation from the mean. -/
def npStd (xs : List ℝ) : ℝ :=
  Real.sqrt ((xs.map (fun v => (v - npMean xs) ^ 2)).sum / xs.length)

/-- Modelled from the spec: `_slope` (sktime.utils.slope_and_trend, code of
this repository that is not under src) is the least-squares linear trend
coefficient of the subsequence against its index 0..n-1; a degenerate
subsequence (length ≤ 1) yields 0, via Lean's division-by-zero = 0
convention, matching the spec's undefined-to-0. -/
def npSlope (xs : List ℝ) : ℝ :=
  let n : ℝ := xs.length
  let xbar := npMean xs
  let tbar := (n - 1) / 2
  ((xs.enum.map (fun q => ((q.1 : ℝ) - tbar) * (q.2 - xbar))).sum) /
    ((xs.enum.map (fun q => ((q.1 : ℝ) - tbar) ^ 2)).sum)

/-- The pre-transpose array built by `_transform` (_tsf.py lines 193-201),
one list per feature row: row 3j holds interval j's means over all
instances, row 3j+1 the standard deviations, row 3j+2 the slopes. -/
def featureRows (X : List (List ℝ)) : List (Nat × Nat) → List (List ℝ)
  | [] => []
  | iv :: rest =>
    (X.map fun row => npMean (npSlice row iv.1 iv.2)) ::
    (X.map fun row => npStd (npSlice row iv.1 iv.2)) ::
    (X.map fun row => npSlope (npSlice row iv.1 iv.2)) ::
    featureRows X rest

/-- Embedding of `_transform(X, intervals)` (_tsf.py lines 174-203): build
the shape-(3K, N) array of per-interval statistics and return its
transpose `transformed_x.T`, the N × 3K feature matrix (output row i is
column i of the pre-transpose array). -/
def _transform (X : List (List ℝ)) (intervals : List (Nat × Nat)) :
    List (List ℝ) :=
  (List.range X.length).map fun i =>
    (featureRows X intervals).map fun col => col.getD i 0

end

lemma featureRows_length (X : List (List ℝ)) (ivs : List (Nat × Nat)) :
    (featureRows X ivs).length = 3 * ivs.length := by
  induction ivs with
  | nil => rfl
  | cons iv rest ih =>
    simp only [featureRows, List.length_cons, ih]
    ring

lemma featureRows_getD (X : List (List ℝ)) (ivs : List (Nat × Nat)) (j : Nat)
    (hj : j < ivs.length) :
    (featureRows X ivs).getD (3 * j) [] =
      (X.map fun row =>
        npMean (npSlice row (ivs.getD j (0, 0)).1 (ivs.getD j (0, 0)).2)) ∧
    (featureRows X ivs).getD (3 * j + 1) [] =
      (X.map fun row =>
        npStd (npSlice row (ivs.getD j (0, 0)).1 (ivs.getD j (0, 0)).2)) ∧
    (featureRows X ivs).getD (3 * j + 2) [] =
      (X.map fun row =>
        npSlope (npSlice row (ivs.getD j (0, 0)).1 (ivs.getD j (0, 0)).2)) := by
  induction ivs generalizing j with
  | nil => simp at hj
  | cons iv rest ih =>
    cases j with
    | zero => exact ⟨rfl, rfl, rfl⟩
    | succ j =>
      have h3 : 3 * (j + 1) = 3 * j + 1 + 1 + 1 := by ring
      have h4 : 3 * (j + 1) + 1 = 3 * j + 1 + 1 + 1 + 1 := by ring
      have h5 : 3 * (j + 1) + 2 = 3 * j + 2 + 1 + 1 + 1 := by ring
      rw [h5, h4, h3]
      simp only [featureRows, List.getD_cons_succ, List.getD_cons_succ,
        List.getD_cons_succ]
      have := ih j (by simpa using Nat.lt_of_succ_lt_succ (by simpa using hj))
      simpa using this

lemma transform_entry (X : List (List ℝ)) (ivs : List (Nat × Nat)) (i c : Nat)
    (hi : i < X.length) (hc : c < 3 * ivs.length) :
    ((_transform X ivs).getD i []).getD c 0 =
      ((featureRows X ivs).getD c []).getD i 0 := by
  unfold _transform
  have h1 : i < ((List.range X.length).map
      (fun i => (featureRows X ivs).map fun col => col.getD i 0)).length := by
    simpa using hi
  rw [List.getD_eq_getElem _ _ h1]
  simp only [List.getElem_map, List.getElem_range]
  have h2 : c < ((featureRows X ivs).map fun col => col.getD i 0).length := by
    simpa [featureRows_length] using hc
  rw [List.getD_eq_getElem _ _ h2]
  simp only [List.getElem_map]
  rw [List.getD_eq_getElem _ [] (by simpa [featureRows_length] using hc)]

lemma map_getD_eq (X : List (List ℝ)) (i : Nat) (hi : i < X.length)
    (f : List ℝ → ℝ) : (X.map f).getD i 0 = f (X.getD i []) := by
  rw [List.getD_eq_getElem _ _ (by simpa using hi), List.getElem_map,
    List.getD_eq_getElem _ _ hi]

/-- C6: for every panel X of N series and every interval set of K
intervals, the feature extractor `_transform` returns a matrix of exactly N
rows and 3K columns; for each interval j, columns 3j, 3j+1, 3j+2 of row i
hold that interval's mean, standard deviation and slope over the half-open
sub-range [start_j, end_j) of series i, so row order mirrors the input row
order. -/
theorem claim_C6 (X : List (List ℝ)) (ivs : List (Nat × Nat)) (i j : Nat)
    (hi : i < X.length) (hj : j < ivs.length) :
    (_transform X ivs).length = X.length ∧
    (∀ row ∈ _transform X ivs, row.length = 3 * ivs.length) ∧
    ((_transform X ivs).getD i []).getD (3 * j) 0 =
      npMean (npSlice (X.getD i []) (ivs.getD j (0, 0)).1
        (ivs.getD j (0, 0)).2) ∧
    ((_transform X ivs).getD i []).getD (3 * j + 1) 0 =
      npStd (npSlice (X.getD i []) (ivs.getD j (0, 0)).1
        (ivs.getD j (0, 0)).2) ∧
    ((_transform X ivs).getD i []).getD (3 * j + 2) 0 =
      npSlope (npSlice (X.getD i []) (ivs.getD j (0, 0)).1
        (ivs.getD j (0, 0)).2) := by
  obtain ⟨hm, hs, hsl⟩ := featureRows_getD X ivs j hj
  refine ⟨by simp [_transform], ?_, ?_, ?_, ?_⟩
  · intro row hrow
    unfold _transform at hrow
    obtain ⟨a, -, rfl⟩ := List.mem_map.mp hrow
    simp [featureRows_length]
  · rw [transform_entry X ivs i (3 * j) hi (by omega), hm,
      map_getD_eq X i hi]
  · rw [transform_entry X ivs i (3 * j + 1) hi (by omega), hs,
      map_getD_eq X i hi]
  · rw [transform_entry X ivs i (3 * j + 2) hi (by omega), hsl,
      map_getD_eq X i hi]

/-- Sample panel for concrete runs: 4 series of length 8. -/
noncomputable def panel48 : List (List ℝ) :=
  [[1, 2, 3, 4, 5, 6, 7, 8], [2, 3, 4, 5, 6, 7, 8, 9],
   [0, 1, 0, 1, 0, 1, 0, 1], [5, 5, 5, 5, 5, 5, 5, 5]]

/-- Witness for C6 on the concrete 4 x 8 panel with two intervals. -/
theorem claim_C6_witness :
    ((0 : Nat) < panel48.length ∧ (1 : Nat) < [(0, 2), (3, 6)].length) ∧
    ((_transform panel48 [(0, 2), (3, 6)]).length = panel48.length ∧
      (∀ row ∈ _transform panel48 [(0, 2), (3, 6)],
        row.length = 3 * [(0, 2), (3, 6)].length) ∧
      ((_transform panel48 [(0, 2), (3, 6)]).getD 0 []).getD (3 * 1) 0 =
        npMean (npSlice (panel48.getD 0 [])
          ([(0, 2), (3, 6)].getD 1 (0, 0)).1
          ([(0, 2), (3, 6)].getD 1 (0, 0)).2) ∧
      ((_transform panel48 [(0, 2), (3, 6)]).getD 0 []).getD (3 * 1 + 1) 0 =
        npStd (npSlice (panel48.getD 0 [])
          ([(0, 2), (3, 6)].getD 1 (0, 0)).1
          ([(0, 2), (3, 6)].getD 1 (0, 0)).2) ∧
      ((_transform panel48 [(0, 2), (3, 6)]).getD 0 []).getD (3 * 1 + 2) 0 =
        npSlope (npSlice (panel48.getD 0 [])
          ([(0, 2), (3, 6)].getD 1 (0, 0)).1
          ([(0, 2), (3, 6)].getD 1 (0, 0)).2)) :=
  ⟨⟨by simp [panel48], by simp⟩,
    claim_C6 panel48 [(0, 2), (3, 6)] 0 1 (by simp [panel48]) (by simp)⟩

/-- Insert a label into a sorted list, keeping it sorted. -/
def insertSorted (x : Int) : List Int → List Int
  | [] => [x]
  | y :: ys => if x ≤ y then x :: y :: ys else y :: insertSorted x ys

/-- Modelled from the spec: the distinct class labels of the label vector
in increasing order, as `np.unique(y)` and sklearn's `class_distribution`
(external collaborators of _tsf.py) produce them. -/
def npUnique (y : List Int) : List Int := y.dedup.foldr insertSorted []

/-- The opaque base tree learner contract: clone-with-seed, fit on
(features, labels) returning the fitted handle, and the per-split feature
importance read `feature_importances_`. -/
structure LearnerOps (E : Type) where
  cloneSeed : E → Nat → E
  fitL : E → List (List ℝ) → List Int → E
  featImp : E → Nat → ℝ

/-- The forest object: the constructor attributes of
`BaseTimeSeriesForest.__init__` (lines 35-66) followed by the attributes
set in fit and the four temporal-curve attributes (None until
`temporal_curves_` runs). -/
structure TSF (E : Type) where
  min_interval : Nat
  n_estimators : Nat
  n_jobs : Nat
  random_state : RNG
  base_est : E
  n_classes : Nat
  series_length : Nat
  n_intervals : Nat
  estimators_ : List E
  intervals_ : List (List (Nat × Nat))
  classes_ : List Int
  _is_fitted : Bool
  mean_curve_ : Option (List ℝ)
  stdev_curve_ : Option (List ℝ)
  slope_curve_ : Option (List ℝ)
  n_intervals_wts_curve_ : Option (List ℝ)

/-- The list comprehension of _tsf.py lines 115-118: one `_get_intervals`
call per planned member, threading the single shared rng sequentially. -/
def genIntervalSets (n_estimators K m L : Nat) (r : RNG) :
    Except String (List (List (Nat × Nat)) × RNG) :=
  match n_estimators with
  | 0 => .ok ([], r)
  | M + 1 =>
    match _get_intervals K m L r with
    | .error e => .error e
    | .ok (iv, r1) =>
      match genIntervalSets M K m L r1 with
      | .error e => .error e
      | .ok (sets, r2) => .ok (iv :: sets, r2)

/-- Modelled from the spec: `_clone_estimator(template, rng)`
(sktime.base._base, code of this repository not under src) derives one
fresh seed per member from the shared rng; the clone calls are evaluated in
member order in the dispatching thread, so the seeds are drawn
sequentially before any worker runs. The int32 upper bound is sklearn's. -/
def drawSeeds : Nat → RNG → List Nat
  | 0, _ => []
  | M + 1, r => (r.stream r.pos % 2147483647) :: drawSeeds M r.next

/-- Ordered fan-out/fan-in join: run the member tasks in the pool's
scheduling order `sched` and collect the results keyed by member index, as
joblib's `Parallel` returns results in dispatch order regardless of which
worker finishes first. -/
def collectOrdered {α : Type} (task : Nat → α) (M : Nat)
    (sched : List Nat) : List α :=
  (List.range M).filterMap fun i => (sched.map fun j => (j, task j)).lookup i

/-- Embedding of `BaseTimeSeriesForest._fit` (lines 84-128). The panel X
arrives channel-squeezed; its shape is (number of rows, length of first
row). The returned pair is (escaped exception if any, the object state
when `_fit` returned or raised): attribute writes made before a raise are
kept, as in Python. `sched` is the worker pool's execution order; `n_jobs`
only sizes the pool (`check_n_jobs` validates it) and enters no computed
value. -/
noncomputable def _fit {E : Type} (ops : LearnerOps E) (s : TSF E)
    (X : List (List ℝ)) (y : List Int) (sched : List Nat) :
    Option String × TSF E :=
  let L := (X.headD []).length
  let s1 : TSF E := { s with
    series_length := L,
    n_classes := (npUnique y).length,
    classes_ := npUnique y,
    n_intervals := if Nat.sqrt L = 0 then 1 else Nat.sqrt L,
    min_interval := if L < s.min_interval then L else s.min_interval }
  match genIntervalSets s1.n_estimators s1.n_intervals s1.min_interval L
      s1.random_state with
  | .error e => (some e, s1)
  | .ok (ivsets, r1) =>
    let seeds := drawSeeds s1.n_estimators r1
    let task := fun i => ops.fitL
      (ops.cloneSeed s1.base_est (seeds.getD i 0))
      (_transform X (ivsets.getD i [])) y
    (none, { s1 with
      intervals_ := ivsets,
      estimators_ := collectOrdered task s1.n_estimators sched,
      _is_fitted := true })

/-- Embedding of `BaseTimeSeriesForest._get_fitted_params` (lines
130-135): a plain read of (classes, intervals, estimators). -/
def _get_fitted_params {E : Type} (s : TSF E) :
    List Int × List (List (Nat × Nat)) × List E :=
  (s.classes_, s.intervals_, s.estimators_)

/-- Modelled from the spec: the public fitted-parameter read wraps
`_get_fitted_params` behind the framework's fitted check (sktime
`BaseEstimator.get_fitted_params`, code of this repository not under src):
before a successful fit it raises NotFittedError and mutates nothing. -/
def get_fitted_params {E : Type} (s : TSF E) :
    Except String (List Int × List (List (Nat × Nat)) × List E) :=
  if s._is_fitted then .ok (_get_fitted_params s) else .error "NotFittedError"

noncomputable section

/-- One `curve += np.where(interval_mask, w, 0)` update of
`temporal_curves_` (lines 159-171): `interval_mask` holds 1 exactly on the
indices of `range(interval[0], interval[1])` (`np.put`), so position t
gains w exactly when interval[0] ≤ t < interval[1]. -/
def maskAdd (c : List ℝ) (a b : Nat) (w : ℝ) : List ℝ :=
  c.enum.map fun q => if a ≤ q.1 ∧ q.1 < b then q.2 + w else q.2

/-- The four running curves of `temporal_curves_`. -/
structure CurveSet where
  wts : List ℝ
  mean : List ℝ
  stdev : List ℝ
  slope : List ℝ

/-- Body of the inner loop of `temporal_curves_` for one enumerated
interval `q = (i_int, interval)` of one member: lines 158-171. -/
def innerStep {E : Type} (ops : LearnerOps E) (est : E) (a : CurveSet)
    (q : Nat × (Nat × Nat)) : CurveSet :=
  { wts := maskAdd a.wts q.2.1 q.2.2 1,
    mean := maskAdd a.mean q.2.1 q.2.2 (ops.featImp est (3 * q.1)),
    stdev := maskAdd a.stdev q.2.1 q.2.2 (ops.featImp est (3 * q.1 + 1)),
    slope := maskAdd a.slope q.2.1 q.2.2 (ops.featImp est (3 * q.1 + 2)) }

/-- The loop of `temporal_curves_` over one (estimator, intervals) member:
fold the inner step over `enumerate(intervals)`. -/
def curvesStep {E : Type} (ops : LearnerOps E) (acc : CurveSet)
    (member : E × List (Nat × Nat)) : CurveSet :=
  member.2.enum.foldl (innerStep ops member.1) acc

/-- Embedding of `BaseTimeSeriesForest.temporal_curves_` (lines 137-171):
zero the four length-`series_length` curves, fold the member loop over
`zip(estimators_, intervals_)`, and overwrite the four curve
attributes with the results. The method performs no fitted check and
raises nothing. -/
def temporal_curves_ {E : Type} (ops : LearnerOps E) (s : TSF E) : TSF E :=
  let z : List ℝ := List.replicate s.series_length 0
  let c := (s.estimators_.zip s.intervals_).foldl (curvesStep ops) ⟨z, z, z, z⟩
  { s with
    mean_curve_ := some c.mean,
    stdev_curve_ := some c.stdev,
    slope_curve_ := some c.slope,
    n_intervals_wts_curve_ := some c.wts }

end

lemma maskAdd_length (c : List ℝ) (a b : Nat) (w : ℝ) :
    (maskAdd c a b w).length = c.length := by
  simp [maskAdd]

lemma maskAdd_getD (c : List ℝ) (a b : Nat) (w : ℝ) (t : Nat)
    (ht : t < c.length) :
    (maskAdd c a b w).getD t 0 =
      if a ≤ t ∧ t < b then c.getD t 0 + w else c.getD t 0 := by
  unfold maskAdd
  rw [List.getD_eq_getElem _ _ (by simpa using ht)]
  rw [List.getElem_map]
  rw [List.getD_eq_getElem _ _ ht]
  congr 1 <;> simp

lemma innerFold_proj {E : Type} (ops : LearnerOps E) (est : E) :
    ∀ (qs : List (Nat × (Nat × Nat))) (acc : CurveSet),
      qs.foldl (innerStep ops est) acc =
        ⟨qs.foldl (fun c q => maskAdd c q.2.1 q.2.2 1) acc.wts,
         qs.foldl (fun c q =>
           maskAdd c q.2.1 q.2.2 (ops.featImp est (3 * q.1))) acc.mean,
         qs.foldl (fun c q =>
           maskAdd c q.2.1 q.2.2 (ops.featImp est (3 * q.1 + 1))) acc.stdev,
         qs.foldl (fun c q =>
           maskAdd c q.2.1 q.2.2 (ops.featImp est (3 * q.1 + 2))) acc.slope⟩
    := by
  intro qs
  induction qs with
  | nil => intro acc; rfl
  | cons q qs ih =>
    intro acc
    simp only [List.foldl_cons]
    rw [ih]
    rfl

lemma curvesFold_proj {E : Type} (ops : LearnerOps E) :
    ∀ (members : List (E × List (Nat × Nat))) (acc : CurveSet),
      members.foldl (curvesStep ops) acc =
        ⟨members.foldl (fun c mem => mem.2.enum.foldl
            (fun c q => maskAdd c q.2.1 q.2.2 1) c) acc.wts,
         members.foldl (fun c mem => mem.2.enum.foldl (fun c q =>
            maskAdd c q.2.1 q.2.2 (ops.featImp mem.1 (3 * q.1))) c) acc.mean,
         members.foldl (fun c mem => mem.2.enum.foldl (fun c q =>
            maskAdd c q.2.1 q.2.2
              (ops.featImp mem.1 (3 * q.1 + 1))) c) acc.stdev,
         members.foldl (fun c mem => mem.2.enum.foldl (fun c q =>
            maskAdd c q.2.1 q.2.2
              (ops.featImp mem.1 (3 * q.1 + 2))) c) acc.slope⟩ := by
  intro members
  induction members with
  | nil => intro acc; rfl
  | cons mem members ih =>
    intro acc
    simp only [List.foldl_cons]
    rw [show curvesStep ops acc mem = mem.2.enum.foldl
      (innerStep ops mem.1) acc from rfl]
    rw [innerFold_proj, ih]

lemma foldl_maskAdd_length {ι : Type} (af bf : ι → Nat) (wf : ι → ℝ) :
    ∀ (ps : List ι) (c : List ℝ),
      (ps.foldl (fun c p => maskAdd c (af p) (bf p) (wf p)) c).length
        = c.length := by
  intro ps
  induction ps with
  | nil => intro c; rfl
  | cons p ps ih =>
    intro c
    simp only [List.foldl_cons]
    rw [ih, maskAdd_length]

lemma foldl_maskAdd_getD {ι : Type} (af bf : ι → Nat) (wf : ι → ℝ) :
    ∀ (ps : List ι) (c : List ℝ) (t : Nat), t < c.length →
      (ps.foldl (fun c p => maskAdd c (af p) (bf p) (wf p)) c).getD t 0 =
        c.getD t 0 +
          (ps.map fun p => if af p ≤ t ∧ t < bf p then wf p else 0).sum := by
  intro ps
  induction ps with
  | nil => intro c t ht; simp
  | cons p ps ih =>
    intro c t ht
    simp only [List.foldl_cons, List.map_cons, List.sum_cons]
    rw [ih _ t (by rw [maskAdd_length]; exact ht), maskAdd_getD _ _ _ _ _ ht]
    by_cases hab : af p ≤ t ∧ t < bf p
    · rw [if_pos hab, if_pos hab]
      ring
    · rw [if_neg hab, if_neg hab]
      ring

lemma nestedFold_length {ι κ : Type} (itemsOf : κ → List ι)
    (af bf : ι → Nat) (wf : κ → ι → ℝ) :
    ∀ (ms : List κ) (c : List ℝ),
      (ms.foldl (fun c mem => (itemsOf mem).foldl
        (fun c q => maskAdd c (af q) (bf q) (wf mem q)) c) c).length
      = c.length := by
  intro ms
  induction ms with
  | nil => intro c; rfl
  | cons mem ms ih =>
    intro c
    simp only [List.foldl_cons]
    rw [ih, foldl_maskAdd_length af bf (wf mem)]

lemma nestedFold_getD {ι κ : Type} (itemsOf : κ → List ι)
    (af bf : ι → Nat) (wf : κ → ι → ℝ) :
    ∀ (ms : List κ) (c : List ℝ) (t : Nat), t < c.length →
      (ms.foldl (fun c mem => (itemsOf mem).foldl
        (fun c q => maskAdd c (af q) (bf q) (wf mem q)) c) c).getD t 0 =
      c.getD t 0 + (ms.map fun mem => ((itemsOf mem).map fun q =>
        if af q ≤ t ∧ t < bf q then wf mem q else 0).sum).sum := by
  intro ms
  induction ms with
  | nil => intro c t ht; simp
  | cons mem ms ih =>
    intro c t ht
    simp only [List.foldl_cons, List.map_cons, List.sum_cons]
    rw [ih _ t (by rw [foldl_maskAdd_length af bf (wf mem)]; exact ht),
      foldl_maskAdd_getD af bf (wf mem) _ _ t ht]
    ring

lemma replicate_getD (L t : Nat) (ht : t < L) :
    (List.replicate L (0 : ℝ)).getD t 0 = 0 := by
  rw [List.getD_eq_getElem _ _ (by simpa using ht)]
  simp

/-- C7: after a fit, `temporal_curves_` produces four curves of length
`series_length` such that at every time index t < series_length the
coverage curve equals the number of (member, interval) pairs whose interval
[start_j, end_j) contains t (each covering interval increments it by 1),
and the mean/stdev/slope curves equal the raw sums of the member tree's
per-split importances at offsets 3j, 3j+1, 3j+2 over those covering
intervals — raw sums, with no normalization applied. -/
theorem claim_C7 {E : Type} (ops : LearnerOps E) (s : TSF E) (t : Nat)
    (ht : t < s.series_length) :
    ∃ wts mean stdev slope : List ℝ,
      (temporal_curves_ ops s).n_intervals_wts_curve_ = some wts ∧
      (temporal_curves_ ops s).mean_curve_ = some mean ∧
      (temporal_curves_ ops s).stdev_curve_ = some stdev ∧
      (temporal_curves_ ops s).slope_curve_ = some slope ∧
      wts.length = s.series_length ∧ mean.length = s.series_length ∧
      stdev.length = s.series_length ∧ slope.length = s.series_length ∧
      wts.getD t 0 = ((s.estimators_.zip s.intervals_).map fun mem =>
        ((mem.2.enum.map fun q =>
          if q.2.1 ≤ t ∧ t < q.2.2 then (1 : ℝ) else 0).sum)).sum ∧
      mean.getD t 0 = ((s.estimators_.zip s.intervals_).map fun mem =>
        ((mem.2.enum.map fun q =>
          if q.2.1 ≤ t ∧ t < q.2.2 then
            ops.featImp mem.1 (3 * q.1) else 0).sum)).sum ∧
      stdev.getD t 0 = ((s.estimators_.zip s.intervals_).map fun mem =>
        ((mem.2.enum.map fun q =>
          if q.2.1 ≤ t ∧ t < q.2.2 then
            ops.featImp mem.1 (3 * q.1 + 1) else 0).sum)).sum ∧
      slope.getD t 0 = ((s.estimators_.zip s.intervals_).map fun mem =>
        ((mem.2.enum.map fun q =>
          if q.2.1 ≤ t ∧ t < q.2.2 then
            ops.featImp mem.1 (3 * q.1 + 2) else 0).sum)).sum := by
  have hz : (List.replicate s.series_length (0 : ℝ)).length
      = s.series_length := by simp
  have htz : t < (List.replicate s.series_length (0 : ℝ)).length := by
    rw [hz]; exact ht
  have hproj := curvesFold_proj ops (s.estimators_.zip s.intervals_)
    ⟨List.replicate s.series_length 0, List.replicate s.series_length 0,
     List.replicate s.series_length 0, List.replicate s.series_length 0⟩
  have hwts : ((s.estimators_.zip s.intervals_).foldl (curvesStep ops)
      ⟨List.replicate s.series_length 0, List.replicate s.series_length 0,
       List.replicate s.series_length 0,
       List.replicate s.series_length 0⟩).wts
      = (s.estimators_.zip s.intervals_).foldl (fun c mem =>
          mem.2.enum.foldl (fun c q => maskAdd c q.2.1 q.2.2 1) c)
          (List.replicate s.series_length 0) := congrArg CurveSet.wts hproj
  have hmean : ((s.estimators_.zip s.intervals_).foldl (curvesStep ops)
      ⟨List.replicate s.series_length 0, List.replicate s.series_length 0,
       List.replicate s.series_length 0,
       List.replicate s.series_length 0⟩).mean
      = (s.estimators_.zip s.intervals_).foldl (fun c mem =>
          mem.2.enum.foldl (fun c q =>
            maskAdd c q.2.1 q.2.2 (ops.featImp mem.1 (3 * q.1))) c)
          (List.replicate s.series_length 0) := congrArg CurveSet.mean hproj
  have hstdev : ((s.estimators_.zip s.intervals_).foldl (curvesStep ops)
      ⟨List.replicate s.series_length 0, List.replicate s.series_length 0,
       List.replicate s.series_length 0,
       List.replicate s.series_length 0⟩).stdev
      = (s.estimators_.zip s.intervals_).foldl (fun c mem =>
          mem.2.enum.foldl (fun c q =>
            maskAdd c q.2.1 q.2.2 (ops.featImp mem.1 (3 * q.1 + 1))) c)
          (List.replicate s.series_length 0) := congrArg CurveSet.stdev hproj
  have hslope : ((s.estimators_.zip s.intervals_).foldl (curvesStep ops)
      ⟨List.replicate s.series_length 0, List.replicate s.series_length 0,
       List.replicate s.series_length 0,
       List.replicate s.series_length 0⟩).slope
      = (s.estimators_.zip s.intervals_).foldl (fun c mem =>
          mem.2.enum.foldl (fun c q =>
            maskAdd c q.2.1 q.2.2 (ops.featImp mem.1 (3 * q.1 + 2))) c)
          (List.replicate s.series_length 0) := congrArg CurveSet.slope hproj
  refine ⟨_, _, _, _, congrArg some hwts, congrArg some hmean,
    congrArg some hstdev, congrArg some hslope, ?_, ?_, ?_, ?_,
    ?_, ?_, ?_, ?_⟩
  · exact Eq.trans (nestedFold_length
      (fun mem : E × List (Nat × Nat) => mem.2.enum)
      (fun q : Nat × (Nat × Nat) => q.2.1)
      (fun q : Nat × (Nat × Nat) => q.2.2)
      (fun mem q => (1 : ℝ)) _ _) hz
  · exact Eq.trans (nestedFold_length
      (fun mem : E × List (Nat × Nat) => mem.2.enum)
      (fun q : Nat × (Nat × Nat) => q.2.1)
      (fun q : Nat × (Nat × Nat) => q.2.2)
      (fun mem q => ops.featImp mem.1 (3 * q.1)) _ _) hz
  · exact Eq.trans (nestedFold_length
      (fun mem : E × List (Nat × Nat) => mem.2.enum)
      (fun q : Nat × (Nat × Nat) => q.2.1)
      (fun q : Nat × (Nat × Nat) => q.2.2)
      (fun mem q => ops.featImp mem.1 (3 * q.1 + 1)) _ _) hz
  · exact Eq.trans (nestedFold_length
      (fun mem : E × List (Nat × Nat) => mem.2.enum)
      (fun q : Nat × (Nat × Nat) => q.2.1)
      (fun q : Nat × (Nat × Nat) => q.2.2)
      (fun mem q => ops.featImp mem.1 (3 * q.1 + 2)) _ _) hz
  · exact Eq.trans (nestedFold_getD
      (fun mem : E × List (Nat × Nat) => mem.2.enum)
      (fun q : Nat × (Nat × Nat) => q.2.1)
      (fun q : Nat × (Nat × Nat) => q.2.2)
      (fun mem q => (1 : ℝ)) _ _ t htz)
      (by rw [replicate_getD _ _ ht, zero_add])
  · exact Eq.trans (nestedFold_getD
      (fun mem : E × List (Nat × Nat) => mem.2.enum)
      (fun q : Nat × (Nat × Nat) => q.2.1)
      (fun q : Nat × (Nat × Nat) => q.2.2)
      (fun mem q => ops.featImp mem.1 (3 * q.1)) _ _ t htz)
      (by rw [replicate_getD _ _ ht, zero_add])
  · exact Eq.trans (nestedFold_getD
      (fun mem : E × List (Nat × Nat) => mem.2.enum)
      (fun q : Nat × (Nat × Nat) => q.2.1)
      (fun q : Nat × (Nat × Nat) => q.2.2)
      (fun mem q => ops.featImp mem.1 (3 * q.1 + 1)) _ _ t htz)
      (by rw [replicate_getD _ _ ht, zero_add])
  · exact Eq.trans (nestedFold_getD
      (fun mem : E × List (Nat × Nat) => mem.2.enum)
      (fun q : Nat × (Nat × Nat) => q.2.1)
      (fun q : Nat × (Nat × Nat) => q.2.2)
      (fun mem q => ops.featImp mem.1 (3 * q.1 + 2)) _ _ t htz)
      (by rw [replicate_getD _ _ ht, zero_add])

/-- Trivial stub learner on the unit handle type, for concrete runs: the
deterministic stub the spec's test plan calls for. -/
noncomputable def ops0 : LearnerOps Unit :=
  ⟨fun e _ => e, fun e _ _ => e, fun _ _ => 0⟩

/-- A freshly constructed, never-fitted forest with the constructor
defaults of `__init__` (lines 35-66): min_interval 3, n_estimators 200,
n_jobs 1, empty fitted attributes, `_is_fitted` False, curve attributes
None. -/
def tsf0 : TSF Unit :=
  ⟨3, 200, 1, rng0, (), 0, 0, 0, [], [], [], false, none, none, none, none⟩

/-- A small fitted forest used for concrete curve runs: one member whose
interval set is the single interval (0, 2) over series length 2. -/
def tsf7 : TSF Unit :=
  { tsf0 with
    series_length := 2,
    estimators_ := [()],
    intervals_ := [[(0, 2)]],
    _is_fitted := true }

/-- Witness for C7 on the one-member forest `tsf7` at t = 0. -/
theorem claim_C7_witness :
    (0 : Nat) < tsf7.series_length ∧
    (∃ wts mean stdev slope : List ℝ,
      (temporal_curves_ ops0 tsf7).n_intervals_wts_curve_ = some wts ∧
      (temporal_curves_ ops0 tsf7).mean_curve_ = some mean ∧
      (temporal_curves_ ops0 tsf7).stdev_curve_ = some stdev ∧
      (temporal_curves_ ops0 tsf7).slope_curve_ = some slope ∧
      wts.length = tsf7.series_length ∧ mean.length = tsf7.series_length ∧
      stdev.length = tsf7.series_length ∧
      slope.length = tsf7.series_length ∧
      wts.getD 0 0 = ((tsf7.estimators_.zip tsf7.intervals_).map fun mem =>
        ((mem.2.enum.map fun q =>
          if q.2.1 ≤ 0 ∧ 0 < q.2.2 then (1 : ℝ) else 0).sum)).sum ∧
      mean.getD 0 0 = ((tsf7.estimators_.zip tsf7.intervals_).map fun mem =>
        ((mem.2.enum.map fun q =>
          if q.2.1 ≤ 0 ∧ 0 < q.2.2 then
            ops0.featImp mem.1 (3 * q.1) else 0).sum)).sum ∧
      stdev.getD 0 0 = ((tsf7.estimators_.zip tsf7.intervals_).map fun mem =>
        ((mem.2.enum.map fun q =>
          if q.2.1 ≤ 0 ∧ 0 < q.2.2 then
            ops0.featImp mem.1 (3 * q.1 + 1) else 0).sum)).sum ∧
      slope.getD 0 0 = ((tsf7.estimators_.zip tsf7.intervals_).map fun mem =>
        ((mem.2.enum.map fun q =>
          if q.2.1 ≤ 0 ∧ 0 < q.2.2 then
            ops0.featImp mem.1 (3 * q.1 + 2) else 0).sum)).sum) :=
  ⟨by decide, claim_C7 ops0 tsf7 0 (by decide)⟩

/-- C8: `temporal_curves_` run twice on the same fitted forest equals
running it once — the second run recomputes the same curves from the
stored members and overwrites — and the computed curves depend only on the
stored estimators (whose importances they read), the stored per-member
interval sets and the stored series length: two forests agreeing on those
three attributes get identical curves, with no dependence on the original
panel (which the object does not even retain) or on any previously stored
curve state. -/
theorem claim_C8 {E : Type} (ops : LearnerOps E) (s s1 s2 : TSF E) :
    temporal_curves_ ops (temporal_curves_ ops s) = temporal_curves_ ops s ∧
    (s1.estimators_ = s2.estimators_ → s1.intervals_ = s2.intervals_ →
      s1.series_length = s2.series_length →
      ((temporal_curves_ ops s1).mean_curve_
          = (temporal_curves_ ops s2).mean_curve_ ∧
        (temporal_curves_ ops s1).stdev_curve_
          = (temporal_curves_ ops s2).stdev_curve_ ∧
        (temporal_curves_ ops s1).slope_curve_
          = (temporal_curves_ ops s2).slope_curve_ ∧
        (temporal_curves_ ops s1).n_intervals_wts_curve_
          = (temporal_curves_ ops s2).n_intervals_wts_curve_)) := by
  constructor
  · rfl
  · intro h1 h2 h3
    refine ⟨?_, ?_, ?_, ?_⟩ <;>
      simp only [temporal_curves_] <;> rw [h1, h2, h3]

/-- Witness for C8 with the concrete one-member fitted forest. -/
theorem claim_C8_witness :
    (tsf7.estimators_ = tsf7.estimators_ ∧
      tsf7.intervals_ = tsf7.intervals_ ∧
      tsf7.series_length = tsf7.series_length) ∧
    temporal_curves_ ops0 (temporal_curves_ ops0 tsf0)
      = temporal_curves_ ops0 tsf0 ∧
    ((temporal_curves_ ops0 tsf7).mean_curve_
        = (temporal_curves_ ops0 tsf7).mean_curve_ ∧
      (temporal_curves_ ops0 tsf7).stdev_curve_
        = (temporal_curves_ ops0 tsf7).stdev_curve_ ∧
      (temporal_curves_ ops0 tsf7).slope_curve_
        = (temporal_curves_ ops0 tsf7).slope_curve_ ∧
      (temporal_curves_ ops0 tsf7).n_intervals_wts_curve_
        = (temporal_curves_ ops0 tsf7).n_intervals_wts_curve_) :=
  ⟨⟨rfl, rfl, rfl⟩, (claim_C8 ops0 tsf0 tsf7 tsf7).1,
    (claim_C8 ops0 tsf0 tsf7 tsf7).2 rfl rfl rfl⟩

/-- C4, code evaluated at the failing input: on a freshly constructed,
unfitted forest the spec-modelled public fitted-parameter read does raise
NotFittedError, but `temporal_curves_` raises nothing — it is a total
method with no fitted check — and it mutates the object: the four curve
attributes change from None to freshly computed (here zero-length) arrays,
so the object is not left in its prior state. -/
theorem claim_C4 :
    get_fitted_params tsf0 = .error "NotFittedError" ∧
    tsf0.mean_curve_ = none ∧
    (temporal_curves_ ops0 tsf0).mean_curve_ = some [] ∧
    (temporal_curves_ ops0 tsf0).stdev_curve_ = some [] ∧
    (temporal_curves_ ops0 tsf0).slope_curve_ = some [] ∧
    (temporal_curves_ ops0 tsf0).n_intervals_wts_curve_ = some [] ∧
    temporal_curves_ ops0 tsf0 ≠ tsf0 := by
  refine ⟨rfl, rfl, rfl, rfl, rfl, rfl, ?_⟩
  intro h
  have h2 : (some ([] : List ℝ)) = (none : Option (List ℝ)) := by
    calc some ([] : List ℝ) = (temporal_curves_ ops0 tsf0).mean_curve_ := rfl
    _ = tsf0.mean_curve_ := by rw [h]
    _ = none := rfl
  exact Option.noConfusion h2

lemma lookup_map_task {α : Type} (task : Nat → α) :
    ∀ (l : List Nat) (i : Nat), i ∈ l →
      (l.map fun j => (j, task j)).lookup i = some (task i) := by
  intro l
  induction l with
  | nil =>
    intro i hi
    simp at hi
  | cons j l ih =>
    intro i hi
    by_cases h : i = j
    · subst h
      simp [List.lookup]
    · have hne : (i == j) = false := by simp [h]
      simp only [List.map_cons, List.lookup, hne]
      exact ih i (by rcases List.mem_cons.mp hi with h1 | h1 <;>
        [exact absurd h1 h; exact h1])

lemma filterMap_eq_map_of {β γ : Type} (f : β → Option γ) (g : β → γ) :
    ∀ (l : List β), (∀ x ∈ l, f x = some (g x)) →
      l.filterMap f = l.map g := by
  intro l
  induction l with
  | nil => intro _; rfl
  | cons x l ih =>
    intro hall
    rw [List.filterMap_cons, hall x (by simp), List.map_cons,
      ih (fun y hy => hall y (by simp [hy]))]

lemma collectOrdered_perm {α : Type} (task : Nat → α) (M : Nat)
    (sched : List Nat) (hp : sched.Perm (List.range M)) :
    collectOrdered task M sched = (List.range M).map task := by
  unfold collectOrdered
  exact filterMap_eq_map_of _ task (List.range M)
    (fun i hi => lookup_map_task task sched i (hp.mem_iff.mpr hi))

lemma genIntervalSets_ok (M K m L : Nat) (h1 : 1 ≤ m) (h2 : m < L) :
    ∀ r : RNG, ∃ sets r2, genIntervalSets M K m L r = .ok (sets, r2) ∧
      sets.length = M ∧ ∀ iv ∈ sets, iv.length = K := by
  induction M with
  | zero =>
    intro r
    exact ⟨[], r, rfl, rfl, by simp⟩
  | succ M ih =>
    intro r
    obtain ⟨ivs, rA, heqA, hlenA, -⟩ := getIntervals_ok K m L h1 h2 r
    obtain ⟨sets, r2, heqB, hlenB, hK⟩ := ih rA
    refine ⟨ivs :: sets, r2, ?_, by simp [hlenB], ?_⟩
    · unfold genIntervalSets
      simp only [heqA, heqB]
    · intro iv hiv
      rcases List.mem_cons.mp hiv with h | h
      · rw [h]; exact hlenA
      · exact hK iv h

lemma genIntervalSets_err (M K m L : Nat) (r : RNG) (hM : 1 ≤ M)
    (hK : 1 ≤ K) (hm : L ≤ m) :
    genIntervalSets M K m L r = .error "ValueError: low >= high" := by
  cases M with
  | zero => omega
  | succ n =>
    unfold genIntervalSets
    rw [getIntervals_err K m L r hK hm]

lemma fit_of_gen_ok {E : Type} (ops : LearnerOps E) (s : TSF E)
    (X : List (List ℝ)) (y : List Int) (sched : List Nat)
    (sets : List (List (Nat × Nat))) (r1 : RNG)
    (hgen : genIntervalSets s.n_estimators
      (if Nat.sqrt (X.headD []).length = 0 then 1
        else Nat.sqrt (X.headD []).length)
      (if (X.headD []).length < s.min_interval then (X.headD []).length
        else s.min_interval)
      (X.headD []).length s.random_state = .ok (sets, r1)) :
    _fit ops s X y sched = (none, { s with
      series_length := (X.headD []).length,
      n_classes := (npUnique y).length,
      classes_ := npUnique y,
      n_intervals := if Nat.sqrt (X.headD []).length = 0 then 1
        else Nat.sqrt (X.headD []).length,
      min_interval := if (X.headD []).length < s.min_interval
        then (X.headD []).length else s.min_interval,
      intervals_ := sets,
      estimators_ := collectOrdered (fun i => ops.fitL
        (ops.cloneSeed s.base_est
          ((drawSeeds s.n_estimators r1).getD i 0))
        (_transform X (sets.getD i [])) y) s.n_estimators sched,
      _is_fitted := true }) := by
  simp only [_fit, hgen]

lemma fit_of_gen_err {E : Type} (ops : LearnerOps E) (s : TSF E)
    (X : List (List ℝ)) (y : List Int) (sched : List Nat) (e : String)
    (hgen : genIntervalSets s.n_estimators
      (if Nat.sqrt (X.headD []).length = 0 then 1
        else Nat.sqrt (X.headD []).length)
      (if (X.headD []).length < s.min_interval then (X.headD []).length
        else s.min_interval)
      (X.headD []).length s.random_state = .error e) :
    _fit ops s X y sched = (some e, { s with
      series_length := (X.headD []).length,
      n_classes := (npUnique y).length,
      classes_ := npUnique y,
      n_intervals := if Nat.sqrt (X.headD []).length = 0 then 1
        else Nat.sqrt (X.headD []).length,
      min_interval := if (X.headD []).length < s.min_interval
        then (X.headD []).length else s.min_interval }) := by
  simp only [_fit, hgen]

/-- C3: two `_fit` runs on the same panel, labels, configuration and seed
produce identical escaped errors, identical per-member interval sets,
identical classes ordering, and (with the deterministic stub contract)
identical fitted estimators, regardless of the configured parallelism
degree `n_jobs` and regardless of the worker pool's execution order: the
intervals are drawn from the single seeded stream before dispatch and the
results are joined by member index. -/
theorem claim_C3 {E : Type} (ops : LearnerOps E) (s : TSF E) (a b : Nat)
    (X : List (List ℝ)) (y : List Int) (sched₁ sched₂ : List Nat)
    (h1 : sched₁.Perm (List.range s.n_estimators))
    (h2 : sched₂.Perm (List.range s.n_estimators)) :
    (_fit ops { s with n_jobs := a } X y sched₁).1
      = (_fit ops { s with n_jobs := b } X y sched₂).1 ∧
    (_fit ops { s with n_jobs := a } X y sched₁).2.intervals_
      = (_fit ops { s with n_jobs := b } X y sched₂).2.intervals_ ∧
    (_fit ops { s with n_jobs := a } X y sched₁).2.classes_
      = (_fit ops { s with n_jobs := b } X y sched₂).2.classes_ ∧
    (_fit ops { s with n_jobs := a } X y sched₁).2.estimators_
      = (_fit ops { s with n_jobs := b } X y sched₂).2.estimators_ := by
  cases hE : genIntervalSets s.n_estimators
      (if Nat.sqrt (X.headD []).length = 0 then 1
        else Nat.sqrt (X.headD []).length)
      (if (X.headD []).length < s.min_interval then (X.headD []).length
        else s.min_interval)
      (X.headD []).length s.random_state with
  | error e =>
    rw [fit_of_gen_err ops { s with n_jobs := a } X y sched₁ e hE,
      fit_of_gen_err ops { s with n_jobs := b } X y sched₂ e hE]
    exact ⟨rfl, rfl, rfl, rfl⟩
  | ok v =>
    obtain ⟨sets, r1⟩ := v
    rw [fit_of_gen_ok ops { s with n_jobs := a } X y sched₁ sets r1 hE,
      fit_of_gen_ok ops { s with n_jobs := b } X y sched₂ sets r1 hE]
    refine ⟨rfl, rfl, rfl, ?_⟩
    show collectOrdered (fun i => ops.fitL
        (ops.cloneSeed s.base_est
          ((drawSeeds s.n_estimators r1).getD i 0))
        (_transform X (sets.getD i [])) y) s.n_estimators sched₁
      = collectOrdered (fun i => ops.fitL
        (ops.cloneSeed s.base_est
          ((drawSeeds s.n_estimators r1).getD i 0))
        (_transform X (sets.getD i [])) y) s.n_estimators sched₂
    rw [collectOrdered_perm _ _ sched₁ h1, collectOrdered_perm _ _ sched₂ h2]

/-- Sample panels and labels for concrete fit runs. -/
noncomputable def X2 : List (List ℝ) := [[1, 2]]

noncomputable def X3 : List (List ℝ) := [[1, 2, 3]]

def y4 : List Int := [0, 1, 0, 1]

/-- A default forest planning 2 members. -/
def tsf3 : TSF Unit := { tsf0 with n_estimators := 2 }

/-- A default forest planning 1 member. -/
def tsf5 : TSF Unit := { tsf0 with n_estimators := 1 }

/-- A default forest planning 3 members. -/
def tsf9 : TSF Unit := { tsf0 with n_estimators := 3 }

/-- Witness for C3: same 4 x 8 panel, labels, configuration and seed, one
run with n_jobs 1 and the pool order 0,1 and one run with n_jobs 4 and the
reversed pool order 1,0. -/
theorem claim_C3_witness :
    (([0, 1] : List Nat).Perm (List.range tsf3.n_estimators) ∧
      ([1, 0] : List Nat).Perm (List.range tsf3.n_estimators)) ∧
    ((_fit ops0 { tsf3 with n_jobs := 1 } panel48 y4 [0, 1]).1
        = (_fit ops0 { tsf3 with n_jobs := 4 } panel48 y4 [1, 0]).1 ∧
      (_fit ops0 { tsf3 with n_jobs := 1 } panel48 y4 [0, 1]).2.intervals_
        = (_fit ops0 { tsf3 with n_jobs := 4 } panel48 y4
            [1, 0]).2.intervals_ ∧
      (_fit ops0 { tsf3 with n_jobs := 1 } panel48 y4 [0, 1]).2.classes_
        = (_fit ops0 { tsf3 with n_jobs := 4 } panel48 y4
            [1, 0]).2.classes_ ∧
      (_fit ops0 { tsf3 with n_jobs := 1 } panel48 y4 [0, 1]).2.estimators_
        = (_fit ops0 { tsf3 with n_jobs := 4 } panel48 y4
            [1, 0]).2.estimators_) :=
  ⟨⟨List.Perm.refl _, List.Perm.swap 0 1 []⟩,
    claim_C3 ops0 tsf3 1 4 panel48 y4 [0, 1] [1, 0]
      (List.Perm.refl _) (List.Perm.swap 0 1 [])⟩

/-- C5: the interval sampler raises numpy's ValueError (the first randint
is called with a non-positive bound) whenever the minimum interval length
is at least the series length and at least one interval is requested, and
returns normally whenever 1 ≤ m < L; consequently `_fit` on a panel whose
series length is at most the configured min_interval (after the clamp the
effective minimum equals the series length) escapes with that error
instead of producing interval sets, for any positive ensemble size. -/
theorem claim_C5 {E : Type} (ops : LearnerOps E) (s : TSF E)
    (K1 m1 L1 K2 m2 L2 : Nat) (r1 r2 : RNG) (X : List (List ℝ))
    (y : List Int) (sched : List Nat) :
    (1 ≤ K1 → L1 ≤ m1 →
      _get_intervals K1 m1 L1 r1 = .error "ValueError: low >= high") ∧
    (1 ≤ m2 → m2 < L2 →
      ∃ ivs rr, _get_intervals K2 m2 L2 r2 = .ok (ivs, rr)) ∧
    (1 ≤ s.n_estimators → (X.headD []).length ≤ s.min_interval →
      ∃ e s2, _fit ops s X y sched = (some e, s2)) := by
  refine ⟨fun hK hm => getIntervals_err K1 m1 L1 r1 hK hm,
    fun h1 h2 => ?_, fun hM hL => ?_⟩
  · obtain ⟨ivs, rr, heq, -, -⟩ := getIntervals_ok K2 m2 L2 h1 h2 r2
    exact ⟨ivs, rr, heq⟩
  · have hmeq : (if (X.headD []).length < s.min_interval
        then (X.headD []).length else s.min_interval)
        = (X.headD []).length := by
      split <;> omega
    have hK' : 1 ≤ (if Nat.sqrt (X.headD []).length = 0 then 1
        else Nat.sqrt (X.headD []).length) := by
      split <;> omega
    have hgen := genIntervalSets_err s.n_estimators
      (if Nat.sqrt (X.headD []).length = 0 then 1
        else Nat.sqrt (X.headD []).length)
      (if (X.headD []).length < s.min_interval then (X.headD []).length
        else s.min_interval)
      (X.headD []).length s.random_state hM hK' (le_of_eq hmeq.symm)
    rw [fit_of_gen_err ops s X y sched _ hgen]
    exact ⟨_, _, rfl⟩

/-- Witness for C5: the sampler fails at K = 1, m = 3, L = 3, succeeds at
K = 1, m = 1, L = 3, and a one-member fit on a length-3 panel under the
default min_interval 3 escapes with the ValueError. -/
theorem claim_C5_witness :
    (1 ≤ 1 ∧ (3 : Nat) ≤ 3 ∧ 1 ≤ 1 ∧ 1 < 3 ∧
      1 ≤ tsf5.n_estimators ∧ (X3.headD []).length ≤ tsf5.min_interval) ∧
    _get_intervals 1 3 3 rng0 = .error "ValueError: low >= high" ∧
    (∃ ivs rr, _get_intervals 1 1 3 rngC = .ok (ivs, rr)) ∧
    (∃ e s2, _fit ops0 tsf5 X3 [0] [0] = (some e, s2)) :=
  ⟨⟨by omega, by omega, by omega, by omega, by decide, by decide⟩,
    (claim_C5 ops0 tsf5 1 3 3 1 1 3 rng0 rngC X3 [0] [0]).1
      (by omega) (by omega),
    (claim_C5 ops0 tsf5 1 3 3 1 1 3 rng0 rngC X3 [0] [0]).2.1
      (by omega) (by omega),
    (claim_C5 ops0 tsf5 1 3 3 1 1 3 rng0 rngC X3 [0] [0]).2.2
      (by decide) (by decide)⟩

/-- C9: when the configured minimum interval length is positive and below
the panel's series length L, `_fit` with ensemble size M completes without
error and stores exactly M fitted estimators and M interval sets, each
interval set holding exactly floor(sqrt(L)) intervals (the count the code
forces to 1 only when floor(sqrt(L)) would be 0), marks the forest fitted,
and sets classes_ to the distinct values of the label vector (in
increasing order, as np.unique produces them). -/
theorem claim_C9 {E : Type} (ops : LearnerOps E) (s : TSF E)
    (X : List (List ℝ)) (y : List Int) (sched : List Nat)
    (hm1 : 1 ≤ s.min_interval)
    (hm2 : s.min_interval < (X.headD []).length)
    (hp : sched.Perm (List.range s.n_estimators)) :
    ∃ s2, _fit ops s X y sched = (none, s2) ∧
      s2.estimators_.length = s.n_estimators ∧
      s2.intervals_.length = s.n_estimators ∧
      (∀ iv ∈ s2.intervals_, iv.length =
        (if Nat.sqrt (X.headD []).length = 0 then 1
          else Nat.sqrt (X.headD []).length)) ∧
      s2.n_intervals = (if Nat.sqrt (X.headD []).length = 0 then 1
        else Nat.sqrt (X.headD []).length) ∧
      s2.classes_ = npUnique y ∧
      s2._is_fitted = true := by
  have hmeq : (if (X.headD []).length < s.min_interval
      then (X.headD []).length else s.min_interval)
      = s.min_interval := if_neg (by omega)
  obtain ⟨sets, r1, hgen, hlen, hK⟩ := genIntervalSets_ok s.n_estimators
    (if Nat.sqrt (X.headD []).length = 0 then 1
      else Nat.sqrt (X.headD []).length)
    s.min_interval (X.headD []).length hm1 hm2 s.random_state
  have hgen2 : genIntervalSets s.n_estimators
      (if Nat.sqrt (X.headD []).length = 0 then 1
        else Nat.sqrt (X.headD []).length)
      (if (X.headD []).length < s.min_interval then (X.headD []).length
        else s.min_interval)
      (X.headD []).length s.random_state = .ok (sets, r1) := by
    rw [hmeq]
    exact hgen
  rw [fit_of_gen_ok ops s X y sched sets r1 hgen2]
  refine ⟨_, rfl, ?_, hlen, hK, rfl, rfl, rfl⟩
  show (collectOrdered (fun i => ops.fitL
      (ops.cloneSeed s.base_est
        ((drawSeeds s.n_estimators r1).getD i 0))
      (_transform X (sets.getD i [])) y) s.n_estimators sched).length
    = s.n_estimators
  rw [collectOrdered_perm _ _ sched hp]
  simp

/-- Witness for C9: the spec's end-to-end example — 4 series of length 8,
labels [0, 1, 0, 1], ensemble size 3 — fit succeeds with 3 estimators, 3
interval sets of floor(sqrt(8)) = 2 intervals each, and classes [0, 1]. -/
theorem claim_C9_witness :
    (1 ≤ tsf9.min_interval ∧
      tsf9.min_interval < (panel48.headD []).length ∧
      (List.range 3).Perm (List.range tsf9.n_estimators)) ∧
    (∃ s2, _fit ops0 tsf9 panel48 y4 (List.range 3) = (none, s2) ∧
      s2.estimators_.length = tsf9.n_estimators ∧
      s2.intervals_.length = tsf9.n_estimators ∧
      (∀ iv ∈ s2.intervals_, iv.length =
        (if Nat.sqrt (panel48.headD []).length = 0 then 1
          else Nat.sqrt (panel48.headD []).length)) ∧
      s2.n_intervals = (if Nat.sqrt (panel48.headD []).length = 0 then 1
        else Nat.sqrt (panel48.headD []).length) ∧
      s2.classes_ = npUnique y4 ∧
      s2._is_fitted = true) :=
  ⟨⟨by decide, by decide, List.Perm.refl _⟩,
    claim_C9 ops0 tsf9 panel48 y4 (List.range 3)
      (by decide) (by decide) (List.Perm.refl _)⟩

/-- C10: `_fit` never writes the configuration attributes n_estimators,
n_jobs and random_state (nor the injected base template), but when the
panel's series length L is below the configured min_interval it overwrites
the public min_interval attribute with L — also on the failing runs this
situation forces — so the configured hyperparameter value does not survive
the fit call. -/
theorem claim_C10 {E : Type} (ops : LearnerOps E) (s : TSF E)
    (X : List (List ℝ)) (y : List Int) (sched : List Nat) :
    ((_fit ops s X y sched).2.n_estimators = s.n_estimators ∧
      (_fit ops s X y sched).2.n_jobs = s.n_jobs ∧
      (_fit ops s X y sched).2.random_state = s.random_state ∧
      (_fit ops s X y sched).2.base_est = s.base_est) ∧
    ((X.headD []).length < s.min_interval →
      (_fit ops s X y sched).2.min_interval = (X.headD []).length) := by
  cases hE : genIntervalSets s.n_estimators
      (if Nat.sqrt (X.headD []).length = 0 then 1
        else Nat.sqrt (X.headD []).length)
      (if (X.headD []).length < s.min_interval then (X.headD []).length
        else s.min_interval)
      (X.headD []).length s.random_state with
  | error e =>
    rw [fit_of_gen_err ops s X y sched e hE]
    refine ⟨⟨rfl, rfl, rfl, rfl⟩, fun hlt => ?_⟩
    show (if (X.headD []).length < s.min_interval then (X.headD []).length
      else s.min_interval) = (X.headD []).length
    rw [if_pos hlt]
  | ok v =>
    obtain ⟨sets, r1⟩ := v
    rw [fit_of_gen_ok ops s X y sched sets r1 hE]
    refine ⟨⟨rfl, rfl, rfl, rfl⟩, fun hlt => ?_⟩
    show (if (X.headD []).length < s.min_interval then (X.headD []).length
      else s.min_interval) = (X.headD []).length
    rw [if_pos hlt]

/-- Witness for C10: fitting the default forest (min_interval 3) on a
single series of length 2 leaves n_estimators, n_jobs, random_state and the
template unchanged and overwrites min_interval with 2. -/
theorem claim_C10_witness :
    ((X2.headD []).length < tsf0.min_interval) ∧
    ((_fit ops0 tsf0 X2 [0] []).2.n_estimators = tsf0.n_estimators ∧
      (_fit ops0 tsf0 X2 [0] []).2.n_jobs = tsf0.n_jobs ∧
      (_fit ops0 tsf0 X2 [0] []).2.random_state = tsf0.random_state ∧
      (_fit ops0 tsf0 X2 [0] []).2.base_est = tsf0.base_est) ∧
    (_fit ops0 tsf0 X2 [0] []).2.min_interval = (X2.headD []).length :=
  ⟨by decide, (claim_C10 ops0 tsf0 X2 [0] []).1,
    (claim_C10 ops0 tsf0 X2 [0] []).2 (by decide)⟩
